import Mathlib

/-!
Verification of the Real-time Taxi Telemetry Streaming pipeline.

Shallow embedding of the three source files:
- src/producer.py                              (ingestion producer)
- src/lambda_functions/enrich_trip_data.py     (enrichment stage)
- src/lambda_functions/process_and_store.py    (fare and persistence stage)

Python dynamic values are modelled by `JVal` (null, booleans, numbers,
strings); numbers are exact rationals, so binary floating point round-off
is idealised away and Python `round(x, 2)` becomes round-half-to-even on
rationals. Python dictionaries are association lists preserving insertion
order. Fallible operations return `Option` or `Except Unit`; an uncaught
Python exception in the per-record code paths of the handlers is an
`Except.error` that the surrounding handler converts into a failure count.
External collaborators (DynamoDB, Firehose, Kinesis, SQS, the geocoding
service) are modelled by explicit outcome parameters and by write traces
collected in the results.
-/

/-- A Python/JSON scalar value as it flows through the pipeline. -/
inductive JVal where
  | null : JVal
  | bool (b : Bool) : JVal
  | num (q : ℚ) : JVal
  | str (s : String) : JVal
deriving DecidableEq, Repr

/-- A Python dict with string keys, as an insertion-ordered association list. -/
abbrev Dict (α : Type) := List (String × α)

/-- Python `d[k]` / `d.get(k)` lookup: first binding for the key. -/
def dlookup {α : Type} (d : Dict α) (k : String) : Option α :=
  match d with
  | [] => none
  | (k2, v) :: rest => if k2 = k then some v else dlookup rest k

/-- Python `d[k] = v`: replace the existing binding, else append at the end. -/
def dset {α : Type} (d : Dict α) (k : String) (v : α) : Dict α :=
  match d with
  | [] => [(k, v)]
  | (k2, w) :: rest => if k2 = k then (k2, v) :: rest else (k2, w) :: dset rest k v

/-- Python `d.setdefault(k, v)`: insert at the end only when the key is absent. -/
def setdefault {α : Type} (d : Dict α) (k : String) (v : α) : Dict α :=
  if (dlookup d k).isSome then d else d ++ [(k, v)]

/-- Python `d.get(k, dflt)`. -/
def dgetD {α : Type} (d : Dict α) (k : String) (dflt : α) : α :=
  (dlookup d k).getD dflt

/-- The record dictionaries flowing between stages. -/
abbrev TripData := Dict JVal

/-- Python `d.get(k)` on a record: `None` when the key is absent. -/
def dget (d : TripData) (k : String) : JVal :=
  dgetD d k JVal.null

/-- Numeric value of a decimal digit character. -/
def digitsVal (l : List Char) : ℕ :=
  l.foldl (fun a c => a * 10 + (c.toNat - 48)) 0

/-- Python `str.strip()` (whitespace on both ends). -/
def pyStrip (s : String) : String := s.trim

/-- Exponent suffix of a float literal: empty, or `e`/`E`, a sign, digits. -/
def parseExpTail (l : List Char) : Option ℤ :=
  match l with
  | [] => some 0
  | c :: rest =>
    if c = 'e' ∨ c = 'E' then
      match rest with
      | '+' :: ds => if ds ≠ [] ∧ ds.all Char.isDigit then some (digitsVal ds : ℤ) else none
      | '-' :: ds => if ds ≠ [] ∧ ds.all Char.isDigit then some (-(digitsVal ds : ℤ)) else none
      | ds => if ds ≠ [] ∧ ds.all Char.isDigit then some (digitsVal ds : ℤ) else none
    else none

/-- Unsigned mantissa of a float literal: digits, an optional point, digits;
at least one digit overall. Returns the value and the unconsumed tail. -/
def parseMantissa (l : List Char) : Option (ℚ × List Char) :=
  let ip := l.takeWhile Char.isDigit
  let rest := l.drop ip.length
  match rest with
  | '.' :: rest2 =>
    let fp := rest2.takeWhile Char.isDigit
    let rest3 := rest2.drop fp.length
    if ip.isEmpty && fp.isEmpty then none
    else some ((digitsVal ip : ℚ) + (digitsVal fp : ℚ) / ((10 : ℚ) ^ fp.length), rest3)
  | _ => if ip.isEmpty then none else some ((digitsVal ip : ℚ), rest)

/-- Python `float(s)` on a string: strip whitespace, optional sign, decimal
mantissa, optional exponent. (The `inf`/`nan` spellings and digit
underscores, never produced by this pipeline, are not modelled.) -/
def parseFloat (s : String) : Option ℚ :=
  let l := (pyStrip s).toList
  let sgnRest : ℚ × List Char :=
    match l with
    | '+' :: r => (1, r)
    | '-' :: r => (-1, r)
    | _ => (1, l)
  match parseMantissa sgnRest.2 with
  | none => none
  | some (m, rest) =>
    match parseExpTail rest with
    | none => none
    | some e => some (sgnRest.1 * m * (10 : ℚ) ^ e)

/-- Python `int(s)` on a string: strip whitespace, optional sign, digits only. -/
def parseIntStr (s : String) : Option ℤ :=
  let l := (pyStrip s).toList
  match l with
  | '+' :: r => if r ≠ [] ∧ r.all Char.isDigit then some (digitsVal r : ℤ) else none
  | '-' :: r => if r ≠ [] ∧ r.all Char.isDigit then some (-(digitsVal r : ℤ)) else none
  | _ => if l ≠ [] ∧ l.all Char.isDigit then some (digitsVal l : ℤ) else none

/-- Python `float(v)` on a dynamic value: `none` models the raised
`ValueError`/`TypeError`. -/
def pyFloat (v : JVal) : Option ℚ :=
  match v with
  | .num q => some q
  | .str s => parseFloat s
  | .bool b => some (if b then 1 else 0)
  | .null => none

/-- Truncation toward zero, as Python `int(...)` applied to a number. -/
def ratTrunc (q : ℚ) : ℤ := Int.tdiv q.num (q.den : ℤ)

/-- Python `int(v)` on a dynamic value. -/
def pyInt (v : JVal) : Except Unit ℤ :=
  match v with
  | .num q => .ok (ratTrunc q)
  | .str s =>
    match parseIntStr s with
    | some n => .ok n
    | none => .error ()
  | .bool b => .ok (if b then 1 else 0)
  | .null => .error ()

/-- `Decimal(str(v))` as used when building the DynamoDB item: exact for
numbers, a decimal-literal parse for strings, and a raised
`InvalidOperation` (error) for `None`/booleans, whose `str` images are not
decimal literals. -/
def decOf (v : JVal) : Except Unit ℚ :=
  match v with
  | .num q => .ok q
  | .str s =>
    match parseFloat s with
    | some q => .ok q
    | none => .error ()
  | .bool _ => .error ()
  | .null => .error ()

/-- Round half to even, Python's rounding mode for `round`. -/
def rndHE (q : ℚ) : ℤ :=
  let f := q - (⌊q⌋ : ℚ)
  if f < 1 / 2 then ⌊q⌋
  else if 1 / 2 < f then ⌊q⌋ + 1
  else if ⌊q⌋ % 2 = 0 then ⌊q⌋ else ⌊q⌋ + 1

/-- Python `round(q, 2)` in the exact-rational idealisation. -/
def round2 (q : ℚ) : ℚ := (rndHE (q * 100) : ℚ) / 100

/-- `needle` occurs as a contiguous run inside the character list. -/
def hasSubList (needle : List Char) : List Char → Bool
  | [] => needle.isEmpty
  | c :: t => List.isPrefixOf needle (c :: t) || hasSubList needle t

/-- Python `needle in hay` on strings. -/
def strContainsSub (hay needle : String) : Bool :=
  hasSubList needle.toList hay.toList

/-!
### Fare and persistence stage — src/lambda_functions/process_and_store.py

`calculate_fare(distance_km, zone_name)` receives the raw `distance_km`
value and the zone value. The zone reaches the surcharge test
`zone_name and 'Airport' in zone_name`; a falsy zone (absent, `None`,
empty string, `0`, `False`) short-circuits to no surcharge, a truthy
string is tested for the substring, and a truthy non-string raises
`TypeError` out of the function. The raising case is modelled where the
handler extracts the zone (`zoneOf`); `calculate_fare` itself takes the
non-raising zone values as `Option String`.
-/

/-- Truthiness of the zone argument (`None` or a string). -/
def zoneTruthy : Option String → Bool
  | none => false
  | some s => !(s = "")

/-- The surcharge test `zone_name and 'Airport' in zone_name`. -/
def airportTest (zone_name : Option String) : Bool :=
  zoneTruthy zone_name && strContainsSub (zone_name.getD "") "Airport"

/-- `calculate_fare` from process_and_store.py lines 15-32. -/
def calculate_fare (distance_km : JVal) (zone_name : Option String) : ℚ :=
  let distance : ℚ := (pyFloat distance_km).getD 0
  let base_fare : ℚ := 50
  let rate_per_km : ℚ := 37 / 2
  let fare := base_fare + distance * rate_per_km
  let fare := if airportTest zone_name then fare + 100 else fare
  round2 fare

/-- Outcome message of `validate_trip_data`. -/
inductive VMsg where
  | missing (fields : List String) : VMsg
  | invalid (field : String) (value : JVal) : VMsg
  | valid : VMsg
deriving DecidableEq, Repr

/-- The eight required fields, in source order. -/
def required_fields : List String :=
  ["trip_id", "taxi_id", "pickup_datetime", "pickup_lat",
   "pickup_long", "drop_lat", "drop_long", "distance_km"]

/-- The five numeric fields checked by validation, in source order. -/
def numeric_fields : List String :=
  ["pickup_lat", "pickup_long", "drop_lat", "drop_long", "distance_km"]

/-- The missing-field test `field not in trip_data or trip_data[field] is None`. -/
def isMissing (d : TripData) (f : String) : Bool :=
  match dlookup d f with
  | none => true
  | some JVal.null => true
  | some _ => false

/-- `validate_trip_data` from process_and_store.py lines 46-67. -/
def validate_trip_data (d : TripData) : Bool × VMsg :=
  let missing_fields := required_fields.filter (fun f => isMissing d f)
  if missing_fields.isEmpty then
    match numeric_fields.find? (fun f => (pyFloat (dget d f)).isNone) with
    | some f => (false, VMsg.invalid f (dget d f))
    | none => (true, VMsg.valid)
  else (false, VMsg.missing missing_fields)

/-- The five `setdefault` calls of step 3 of the handler, in source order. -/
def setDefaults (d : TripData) : TripData :=
  let d := setdefault d "passenger_count" (JVal.num 0)
  let d := setdefault d "extra_charges" (JVal.num 0)
  let d := setdefault d "tip_amount" (JVal.num 0)
  let d := setdefault d "tolls_amount" (JVal.num 0)
  let d := setdefault d "payment_type" (JVal.str "CASH")
  d

/-- Outcome of the zone argument reaching `calculate_fare`: falsy values and
strings are the non-raising cases of `zone_name and 'Airport' in zone_name`;
a truthy non-string raises `TypeError` through the handler's per-record catch. -/
def zoneOf (v : JVal) : Except Unit (Option String) :=
  match v with
  | .null => .ok none
  | .str s => .ok (some s)
  | .num q => if q = 0 then .ok none else .error ()
  | .bool b => if b then .error () else .ok none

/-- The DynamoDB item of step 4 of the handler: explicit field mapping, with
the numeric fields carried through `Decimal(str(...))` and
`passenger_count` through `int(...)`. -/
structure DynamoItem where
  trip_id : JVal
  taxi_id : JVal
  pickup_datetime : JVal
  pickup_lat : ℚ
  pickup_long : ℚ
  drop_lat : ℚ
  drop_long : ℚ
  distance_km : ℚ
  zone_name : JVal
  fare_amount : ℚ
  passenger_count : ℤ
  extra_charges : ℚ
  tip_amount : ℚ
  tolls_amount : ℚ
  total_amount : ℚ
  payment_type : JVal
deriving DecidableEq, Repr

/-- Building the DynamoDB item (process_and_store.py lines 127-145); any
failing conversion raises through the per-record catch. -/
def buildItem (d : TripData) (fare : ℚ) : Except Unit DynamoItem :=
  match dlookup d "trip_id",
        decOf (dgetD d "pickup_lat" (JVal.num 0)),
        decOf (dgetD d "pickup_long" (JVal.num 0)),
        decOf (dgetD d "drop_lat" (JVal.num 0)),
        decOf (dgetD d "drop_long" (JVal.num 0)),
        decOf (dgetD d "distance_km" (JVal.num 0)),
        pyInt (dgetD d "passenger_count" (JVal.num 0)),
        decOf (dgetD d "extra_charges" (JVal.num 0)),
        decOf (dgetD d "tip_amount" (JVal.num 0)),
        decOf (dgetD d "tolls_amount" (JVal.num 0)),
        decOf (dgetD d "total_amount" (JVal.num 0)) with
  | some tid, .ok plat, .ok plong, .ok dlat, .ok dlong, .ok dist,
    .ok pc, .ok ec, .ok tip, .ok tolls, .ok tot =>
    .ok { trip_id := tid,
          taxi_id := dgetD d "taxi_id" (JVal.str ""),
          pickup_datetime := dgetD d "pickup_datetime" (JVal.str ""),
          pickup_lat := plat, pickup_long := plong,
          drop_lat := dlat, drop_long := dlong,
          distance_km := dist,
          zone_name := dgetD d "zone_name" (JVal.str ""),
          fare_amount := fare, passenger_count := pc,
          extra_charges := ec, tip_amount := tip, tolls_amount := tolls,
          total_amount := tot,
          payment_type := dgetD d "payment_type" (JVal.str "CASH") }
  | _, _, _, _, _, _, _, _, _, _, _ => .error ()

/-- The Firehose copy of step 6 of the handler: the record plus the alias
fields expected by the analytics schema. -/
def mkFirehose (d : TripData) : TripData :=
  let f := setdefault d "dropoff_datetime" JVal.null
  let f := setdefault f "pickup_latitude" (dget d "pickup_lat")
  let f := setdefault f "pickup_longitude" (dget d "pickup_long")
  let f := setdefault f "dropoff_latitude" (dget d "drop_lat")
  let f := setdefault f "dropoff_longitude" (dget d "drop_long")
  f

/-- Effects of processing one SQS record: the DynamoDB writes performed, the
Firehose writes performed, and whether the record counted as processed. -/
structure RecEffects where
  items : List DynamoItem
  fh : List TripData
  ok : Bool
deriving DecidableEq, Repr

/-- Steps 2-7 of the handler for a record that passed validation.
`dynamoOk`/`fhOk` are the outcomes of the external `put_item` and
`put_record` calls; a raising call contributes no write of its own and the
rest of the record's processing is abandoned by the per-record catch. -/
def processValid (dynamoOk fhOk : Bool) (d0 : TripData) : RecEffects :=
  match zoneOf (dget d0 "zone_name") with
  | .error _ => ⟨[], [], false⟩
  | .ok z =>
    let fare := calculate_fare (dget d0 "distance_km") z
    let d1 := setDefaults (dset d0 "fare_amount" (JVal.num fare))
    match pyFloat (dgetD d1 "extra_charges" (JVal.num 0)),
          pyFloat (dgetD d1 "tip_amount" (JVal.num 0)),
          pyFloat (dgetD d1 "tolls_amount" (JVal.num 0)) with
    | some e, some t, some tl =>
      let d2 := dset d1 "total_amount" (JVal.num (round2 (fare + e + t + tl)))
      match buildItem d2 fare with
      | .error _ => ⟨[], [], false⟩
      | .ok item =>
        if dynamoOk then
          if fhOk then ⟨[item], [mkFirehose d2], true⟩
          else ⟨[item], [], false⟩
        else ⟨[], [], false⟩
    | _, _, _ => ⟨[], [], false⟩

/-- One SQS record of the handler loop: `none` models a body on which
`json.loads` raises, `some d` the decoded record. -/
def processBody (dynamoOk fhOk : Bool) (body : Option TripData) : RecEffects :=
  match body with
  | none => ⟨[], [], false⟩
  | some d =>
    if (validate_trip_data d).1 then processValid dynamoOk fhOk d
    else ⟨[], [], false⟩

/-- One inbound SQS record together with the outcomes of its two external
write calls. -/
abbrev RecIn := Option TripData × Bool × Bool

/-- Result of one invocation of the fare-and-persistence handler. -/
structure HResult where
  processed : ℕ
  failed : ℕ
  total : ℕ
  dynamo : List DynamoItem
  fh : List TripData
deriving DecidableEq, Repr

/-- The handler loop of `lambda_handler` (process_and_store.py lines 85-195):
sequential per-record processing, every per-record error converted into the
failure counter, and the counts returned after the loop. -/
def runRecords : List RecIn → HResult
  | [] => ⟨0, 0, 0, [], []⟩
  | r :: rs =>
    let eff := processBody r.2.1 r.2.2 r.1
    let rest := runRecords rs
    ⟨(if eff.ok then 1 else 0) + rest.processed,
     (if eff.ok then 0 else 1) + rest.failed,
     1 + rest.total,
     eff.items ++ rest.dynamo,
     eff.fh ++ rest.fh⟩

/-!
### Enrichment stage — src/lambda_functions/enrich_trip_data.py
-/

/-- The reverse-geocoding request sent to
`search_place_index_for_position`. -/
structure GeoQuery where
  indexName : String
  position : List ℚ
  maxResults : ℕ
deriving DecidableEq, Repr

/-- The request built for one decoded record (enrich_trip_data.py lines
37-44): `Position=[float(trip_data['longitude']), float(trip_data['latitude'])]`,
`MaxResults=1`, on the configured place index. `none` models the per-record
exception (missing key or failing `float`). -/
def enrichQuery (placeIndex : String) (d : TripData) : Option GeoQuery :=
  match dlookup d "longitude", dlookup d "latitude" with
  | some lv, some tv =>
    match pyFloat lv, pyFloat tv with
    | some lo, some la => some ⟨placeIndex, [lo, la], 1⟩
    | _, _ => none
  | _, _ => none

/-- Result of one invocation of the enrichment handler: the count its
success body reports and the messages sent to the SQS queue. -/
structure EnrichResult where
  reportedCount : ℕ
  sent : List TripData
deriving Repr

/-- The enrichment handler loop (enrich_trip_data.py lines 27-79). `geo`
is the external geocoding service, returning the labels of the result
list; an empty list yields the `Unknown` zone. Every per-record error is
caught and the loop continues; the returned body reports
`len(event['Records'])`. -/
def enrich_handler (placeIndex : String) (geo : GeoQuery → List String)
    (msgs : List (Option TripData)) : EnrichResult :=
  { reportedCount := msgs.length,
    sent := msgs.filterMap (fun m =>
      match m with
      | none => none
      | some d =>
        match enrichQuery placeIndex d with
        | none => none
        | some q =>
          let zone := match geo q with
            | l :: _ => l
            | [] => "Unknown"
          some (dset d "zone_name" (JVal.str zone))) }

/-!
### Ingestion producer — src/producer.py

CSV rows are dictionaries of strings. The per-row code of
`send_data_in_batches` runs inside one `try` that spans the whole loop, so
a raising row (a failing `float`/`int` conversion or a missing `trip_id`)
aborts the remaining rows, while a row skipped for a missing or blank
`pickup_datetime` just continues.
-/

/-- A CSV row as read by `csv.DictReader`. -/
abbrev Row := Dict String

/-- The admission test of producer.py lines 28-30. -/
def skipRow (row : Row) : Bool :=
  match dlookup row "pickup_datetime" with
  | none => true
  | some s => (pyStrip s).isEmpty

/-- A CSV row seen as a dynamic-value record. -/
def rowToD (row : Row) : TripData :=
  row.map (fun kv => (kv.1, JVal.str kv.2))

/-- `row[col] = float(row.get(col, 0))` for one numeric column. -/
def coerceFloat (d : TripData) (col : String) : Except Unit TripData :=
  match pyFloat (dgetD d col (JVal.num 0)) with
  | some q => .ok (dset d col (JVal.num q))
  | none => .error ()

/-- The seven numeric columns of producer.py line 33, in source order. -/
def producerNumericCols : List String :=
  ["latitude", "longitude", "pickup_lat", "pickup_long",
   "drop_lat", "drop_long", "distance_km"]

/-- `row.get('extra_charges', row.get('extra', 0))`. -/
def extraVal (d : TripData) : JVal :=
  match dlookup d "extra_charges" with
  | some v => v
  | none => dgetD d "extra" (JVal.num 0)

/-- `row['zone_name'] = row.get('zone_name', '').strip('"')`; a non-string
value would raise, but rows hold only strings at this point. -/
def zoneStripped (d : TripData) : Except Unit String :=
  match dlookup d "zone_name" with
  | none => .ok ""
  | some (JVal.str s) =>
    .ok (String.mk (((s.toList.dropWhile (fun c => c = '"')).reverse.dropWhile
      (fun c => c = '"')).reverse))
  | some _ => .error ()

/-- One outgoing Kinesis record: the serialized row and its partition key. -/
structure KRecord where
  data : TripData
  partitionKey : String
deriving DecidableEq, Repr

/-- The field coercions and record construction of producer.py lines 32-50
for one admitted row. -/
def buildKRecord (row : Row) : Except Unit KRecord := do
  let d := rowToD row
  let d ← coerceFloat d "latitude"
  let d ← coerceFloat d "longitude"
  let d ← coerceFloat d "pickup_lat"
  let d ← coerceFloat d "pickup_long"
  let d ← coerceFloat d "drop_lat"
  let d ← coerceFloat d "drop_long"
  let d ← coerceFloat d "distance_km"
  let pc ← pyInt (dgetD d "passenger_count" (JVal.num 0))
  let d := dset d "passenger_count" (JVal.num pc)
  let fa ← match pyFloat (dgetD d "fare_amount" (JVal.num 0)) with
    | some q => Except.ok q
    | none => Except.error ()
  let d := dset d "fare_amount" (JVal.num fa)
  let ec ← match pyFloat (extraVal d) with
    | some q => Except.ok q
    | none => Except.error ()
  let d := dset d "extra_charges" (JVal.num ec)
  let tp ← match pyFloat (dgetD d "tip_amount" (JVal.num 0)) with
    | some q => Except.ok q
    | none => Except.error ()
  let d := dset d "tip_amount" (JVal.num tp)
  let tl ← match pyFloat (dgetD d "tolls_amount" (JVal.num 0)) with
    | some q => Except.ok q
    | none => Except.error ()
  let d := dset d "tolls_amount" (JVal.num tl)
  let ta ← match pyFloat (dgetD d "total_amount" (JVal.num 0)) with
    | some q => Except.ok q
    | none => Except.error ()
  let d := dset d "total_amount" (JVal.num ta)
  let zn ← zoneStripped d
  let d := dset d "zone_name" (JVal.str zn)
  let pk ← match dlookup d "trip_id" with
    | some (JVal.str s) => Except.ok s
    | _ => Except.error ()
  Except.ok ⟨d, pk⟩

/-- The row loop of `send_data_in_batches`: the records appended to the
batch buffer in order, and whether the loop ran to completion (`false`
when a row raised and the surrounding catch ended the run). -/
def sendLoop : List Row → List KRecord × Bool
  | [] => ([], true)
  | row :: rest =>
    if skipRow row then sendLoop rest
    else
      match buildKRecord row with
      | .error _ => ([], false)
      | .ok r =>
        let rc := sendLoop rest
        (r :: rc.1, rc.2)

/-- The records actually delivered to the stream for batch size `B`: full
batches are published as they fill; the trailing short batch is published
only when the loop completed, since an aborting row jumps past the final
flush. (Publish failures of the external call are not modelled here.) -/
def delivered (B : ℕ) (rows : List Row) : List KRecord :=
  let rc := sendLoop rows
  if rc.2 then rc.1 else rc.1.take (B * (rc.1.length / B))

/-!
### Claim-side definitions and concrete sample records
-/

/-- Claim side of C1: the zone contains the substring `Airport`. -/
def zoneHasAirport : Option String → Bool
  | none => false
  | some s => strContainsSub s "Airport"

/-- Claim side of C1: the fare formula as the spec states it. -/
def fareSpec (distance_km : JVal) (zone_name : Option String) : ℚ :=
  round2 (50 + ((pyFloat distance_km).getD 0) * (37 / 2) +
    (if zoneHasAirport zone_name then 100 else 0))

/-- A fully valid record, the end-to-end example of the spec. -/
def dGood : TripData :=
  [("trip_id", .str "T1"), ("taxi_id", .str "TX1"),
   ("pickup_datetime", .str "2024-01-01T10:00:00"),
   ("pickup_lat", .num (129 / 10)), ("pickup_long", .num (776 / 10)),
   ("drop_lat", .num (1295 / 100)), ("drop_long", .num (7765 / 100)),
   ("distance_km", .str "8.2"), ("zone_name", .str "Downtown Plaza")]

/-- A second fully valid record. -/
def dGood2 : TripData :=
  [("trip_id", .str "T2"), ("taxi_id", .str "TX2"),
   ("pickup_datetime", .str "2024-01-02T11:00:00"),
   ("pickup_lat", .num 1), ("pickup_long", .num 2),
   ("drop_lat", .num 3), ("drop_long", .num 4),
   ("distance_km", .num 3), ("zone_name", .str "Airport Gate 4"),
   ("tip_amount", .num (5 / 2))]

/-- A record whose `trip_id` is present but the empty string; every other
required field is valid. -/
def dEmptyTrip : TripData :=
  [("trip_id", .str ""), ("taxi_id", .str "TX"),
   ("pickup_datetime", .str "2024-01-01"),
   ("pickup_lat", .num 1), ("pickup_long", .num 2),
   ("drop_lat", .num 3), ("drop_long", .num 4), ("distance_km", .num 2)]

/-- A record failing validation (most required fields absent). -/
def dBadRec : TripData := [("trip_id", JVal.str "T9")]

/-- A record with a present `passenger_count`, for the defaulting claim. -/
def dPC : TripData := [("passenger_count", JVal.num 3)]

/-- A record whose canonical and legacy pickup coordinates disagree. -/
def dAlias : TripData :=
  [("pickup_long", .num 1), ("pickup_lat", .num 2),
   ("longitude", .num 3), ("latitude", .num 4)]

/-- A placeholder item for list head defaults in witness statements. -/
def itemJunk : DynamoItem :=
  ⟨JVal.null, JVal.null, JVal.null, 0, 0, 0, 0, 0, JVal.null, 0, 0, 0, 0, 0,
   0, JVal.null⟩

/-- A producer row skipped for a blank `pickup_datetime`. -/
def rowBlank : Row := [("pickup_datetime", "  ")]

/-- A producer row that yields a record. -/
def rowT1 : Row := [("trip_id", "T1"), ("pickup_datetime", "2024")]

/-!
### Dictionary lemmas
-/

theorem dlookup_dset_self {α : Type} (d : Dict α) (k : String) (v : α) :
    dlookup (dset d k v) k = some v := by
  induction d with
  | nil => simp [dset, dlookup]
  | cons kv rest ih =>
    by_cases h : kv.1 = k
    · simp [dset, dlookup, h]
    · simp [dset, dlookup, h, ih]

theorem dlookup_dset_ne {α : Type} (d : Dict α) (k k2 : String) (v : α)
    (h : k2 ≠ k) : dlookup (dset d k v) k2 = dlookup d k2 := by
  induction d with
  | nil => simp [dset, dlookup, Ne.symm h]
  | cons kv rest ih =>
    by_cases hk : kv.1 = k
    · subst hk
      simp [dset, dlookup, Ne.symm h, ih]
    · simp [dset, dlookup, hk, ih]

theorem dlookup_append {α : Type} (d1 d2 : Dict α) (k : String) :
    dlookup (d1 ++ d2) k = ((dlookup d1 k).or (dlookup d2 k)) := by
  induction d1 with
  | nil => simp [dlookup]
  | cons kv rest ih =>
    by_cases hk : kv.1 = k
    · simp [dlookup, hk]
    · simp [dlookup, hk, ih]

theorem dlookup_setdefault_self {α : Type} (d : Dict α) (k : String) (v : α) :
    dlookup (setdefault d k v) k = some ((dlookup d k).getD v) := by
  unfold setdefault
  by_cases h : (dlookup d k).isSome
  · obtain ⟨w, hw⟩ := Option.isSome_iff_exists.mp h
    simp [h, hw]
  · rw [Option.not_isSome_iff_eq_none] at h
    simp [h, dlookup_append, dlookup]

theorem dlookup_setdefault_ne {α : Type} (d : Dict α) (k k2 : String) (v : α)
    (h : k2 ≠ k) : dlookup (setdefault d k v) k2 = dlookup d k2 := by
  unfold setdefault
  by_cases hs : (dlookup d k).isSome
  · simp [hs]
  · rw [if_neg hs, dlookup_append]
    simp [dlookup, Ne.symm h]

theorem dlookup_setdefault_present {α : Type} (d : Dict α) (k k2 : String)
    (v w : α) (h : dlookup d k2 = some w) :
    dlookup (setdefault d k v) k2 = some w := by
  by_cases hk : k2 = k
  · subst hk
    rw [dlookup_setdefault_self, h]
    rfl
  · rw [dlookup_setdefault_ne d k k2 v hk, h]

theorem setdefault_of_present {α : Type} (d : Dict α) (k : String) (v : α)
    (h : (dlookup d k).isSome) : setdefault d k v = d := by
  simp [setdefault, h]

/-!
### Helper lemmas about the fare-and-persistence stage
-/

theorem decOf_ok_pyFloat (v : JVal) (x : ℚ) (h : decOf v = .ok x) :
    pyFloat v = some x := by
  cases v with
  | num q => simp [decOf] at h; simp [pyFloat, h]
  | str s =>
    simp only [decOf] at h
    cases hp : parseFloat s with
    | none => rw [hp] at h; exact absurd h (by simp)
    | some q => rw [hp] at h; simp at h; simp [pyFloat, hp, h]
  | bool b => exact absurd h (by simp [decOf])
  | null => exact absurd h (by simp [decOf])

theorem dlookup_setDefaults_of_ne (d : TripData) (k : String)
    (h1 : k ≠ "passenger_count") (h2 : k ≠ "extra_charges")
    (h3 : k ≠ "tip_amount") (h4 : k ≠ "tolls_amount")
    (h5 : k ≠ "payment_type") :
    dlookup (setDefaults d) k = dlookup d k := by
  unfold setDefaults
  rw [dlookup_setdefault_ne _ _ _ _ h5, dlookup_setdefault_ne _ _ _ _ h4,
      dlookup_setdefault_ne _ _ _ _ h3, dlookup_setdefault_ne _ _ _ _ h2,
      dlookup_setdefault_ne _ _ _ _ h1]

theorem dlookup_setDefaults_extra (d : TripData) :
    dlookup (setDefaults d) "extra_charges" =
      some ((dlookup d "extra_charges").getD (JVal.num 0)) := by
  unfold setDefaults
  rw [dlookup_setdefault_ne _ _ _ _ (by decide),
      dlookup_setdefault_ne _ _ _ _ (by decide),
      dlookup_setdefault_ne _ _ _ _ (by decide),
      dlookup_setdefault_self,
      dlookup_setdefault_ne _ _ _ _ (by decide)]

theorem dlookup_setDefaults_tip (d : TripData) :
    dlookup (setDefaults d) "tip_amount" =
      some ((dlookup d "tip_amount").getD (JVal.num 0)) := by
  unfold setDefaults
  rw [dlookup_setdefault_ne _ _ _ _ (by decide),
      dlookup_setdefault_ne _ _ _ _ (by decide),
      dlookup_setdefault_self,
      dlookup_setdefault_ne _ _ _ _ (by decide),
      dlookup_setdefault_ne _ _ _ _ (by decide)]

theorem dlookup_setDefaults_tolls (d : TripData) :
    dlookup (setDefaults d) "tolls_amount" =
      some ((dlookup d "tolls_amount").getD (JVal.num 0)) := by
  unfold setDefaults
  rw [dlookup_setdefault_ne _ _ _ _ (by decide),
      dlookup_setdefault_self,
      dlookup_setdefault_ne _ _ _ _ (by decide),
      dlookup_setdefault_ne _ _ _ _ (by decide),
      dlookup_setdefault_ne _ _ _ _ (by decide)]

theorem buildItem_ok (d : TripData) (fare : ℚ) (item : DynamoItem)
    (h : buildItem d fare = .ok item) :
    item.fare_amount = fare ∧
    dlookup d "trip_id" = some item.trip_id ∧
    decOf (dgetD d "extra_charges" (JVal.num 0)) = .ok item.extra_charges ∧
    decOf (dgetD d "tip_amount" (JVal.num 0)) = .ok item.tip_amount ∧
    decOf (dgetD d "tolls_amount" (JVal.num 0)) = .ok item.tolls_amount ∧
    decOf (dgetD d "total_amount" (JVal.num 0)) = .ok item.total_amount := by
  unfold buildItem at h
  split at h
  · rename_i tid plat plong dlat dlong dist pc ec tip tolls tot htid hplat
      hplong hdlat hdlong hdist hpc hec htip htolls htot
    injection h with h2
    subst h2
    exact ⟨rfl, htid, hec, htip, htolls, htot⟩
  · exact absurd h (by simp)

theorem processValid_item (a b : Bool) (d : TripData) (item : DynamoItem)
    (h : item ∈ (processValid a b d).items) :
    (∃ z, zoneOf (dget d "zone_name") = .ok z ∧
      item.fare_amount = calculate_fare (dget d "distance_km") z) ∧
    item.total_amount = round2 (item.fare_amount + item.extra_charges +
      item.tip_amount + item.tolls_amount) ∧
    dlookup d "trip_id" = some item.trip_id := by
  simp only [processValid] at h
  split at h
  · exact absurd h (by simp)
  · rename_i z hz
    split at h
    · rename_i e t tl he ht htl
      split at h
      · exact absurd h (by simp)
      · rename_i item2 hb
        split at h
        · split at h
          all_goals
            simp only [List.mem_singleton] at h
            subst h
            obtain ⟨hf, htid, hec, htip, htolls, htot⟩ := buildItem_ok _ _ _ hb
            simp only [dgetD] at htot hec htip htolls
            rw [dlookup_dset_self, Option.getD_some] at htot
            rw [dlookup_dset_ne _ _ _ _ (by decide), dlookup_setDefaults_extra,
              Option.getD_some] at hec
            rw [dlookup_dset_ne _ _ _ _ (by decide), dlookup_setDefaults_tip,
              Option.getD_some] at htip
            rw [dlookup_dset_ne _ _ _ _ (by decide), dlookup_setDefaults_tolls,
              Option.getD_some] at htolls
            rw [dlookup_dset_ne _ _ _ _ (by decide),
              dlookup_setDefaults_of_ne _ _ (by decide) (by decide) (by decide)
                (by decide) (by decide),
              dlookup_dset_ne _ _ _ _ (by decide)] at htid
            simp only [dgetD] at he ht htl
            rw [dlookup_setDefaults_extra, Option.getD_some] at he
            rw [dlookup_setDefaults_tip, Option.getD_some] at ht
            rw [dlookup_setDefaults_tolls, Option.getD_some] at htl
            have hee : e = item.extra_charges := by
              have h2 := decOf_ok_pyFloat _ _ hec
              rw [he] at h2
              exact Option.some.inj h2
            have hte : t = item.tip_amount := by
              have h2 := decOf_ok_pyFloat _ _ htip
              rw [ht] at h2
              exact Option.some.inj h2
            have htle : tl = item.tolls_amount := by
              have h2 := decOf_ok_pyFloat _ _ htolls
              rw [htl] at h2
              exact Option.some.inj h2
            simp only [decOf] at htot
            have htoteq := Option.some.inj (congrArg Except.toOption htot)
            refine ⟨⟨z, hz, hf⟩, ?_, htid⟩
            rw [← htoteq, hf, hee, hte, htle]
        · exact absurd h (by simp)
    · exact absurd h (by simp)

theorem dlookup_setDefaults_pc (d : TripData) :
    dlookup (setDefaults d) "passenger_count" =
      some ((dlookup d "passenger_count").getD (JVal.num 0)) := by
  unfold setDefaults
  rw [dlookup_setdefault_ne _ _ _ _ (by decide),
      dlookup_setdefault_ne _ _ _ _ (by decide),
      dlookup_setdefault_ne _ _ _ _ (by decide),
      dlookup_setdefault_ne _ _ _ _ (by decide),
      dlookup_setdefault_self]

theorem dlookup_setDefaults_pay (d : TripData) :
    dlookup (setDefaults d) "payment_type" =
      some ((dlookup d "payment_type").getD (JVal.str "CASH")) := by
  unfold setDefaults
  rw [dlookup_setdefault_self,
      dlookup_setdefault_ne _ _ _ _ (by decide),
      dlookup_setdefault_ne _ _ _ _ (by decide),
      dlookup_setdefault_ne _ _ _ _ (by decide),
      dlookup_setdefault_ne _ _ _ _ (by decide)]

theorem setDefaults_of_all_present (D : TripData)
    (h1 : (dlookup D "passenger_count").isSome = true)
    (h2 : (dlookup D "extra_charges").isSome = true)
    (h3 : (dlookup D "tip_amount").isSome = true)
    (h4 : (dlookup D "tolls_amount").isSome = true)
    (h5 : (dlookup D "payment_type").isSome = true) :
    setDefaults D = D := by
  simp only [setDefaults]
  rw [setdefault_of_present _ _ _ h1, setdefault_of_present _ _ _ h2,
      setdefault_of_present _ _ _ h3, setdefault_of_present _ _ _ h4,
      setdefault_of_present _ _ _ h5]

theorem airportTest_eq (z : Option String) :
    airportTest z = zoneHasAirport z := by
  cases z with
  | none => rfl
  | some s =>
    by_cases h : s = ""
    · subst h
      decide
    · simp [airportTest, zoneTruthy, zoneHasAirport, h]

theorem validate_true_no_missing (d : TripData)
    (h : (validate_trip_data d).1 = true) :
    required_fields.filter (fun f => isMissing d f) = [] := by
  by_contra hne
  have hiE : (required_fields.filter (fun f => isMissing d f)).isEmpty = false := by
    cases hl : required_fields.filter (fun f => isMissing d f) with
    | nil => exact absurd hl hne
    | cons a l => rfl
  simp only [validate_trip_data, hiE] at h
  simp at h

theorem processBody_invalid (a b : Bool) (d : TripData)
    (h : (validate_trip_data d).1 = false) :
    processBody a b (some d) = ⟨[], [], false⟩ := by
  simp [processBody, h]

theorem processValid_cases (a b : Bool) (d : TripData) :
    processValid a b d = ⟨[], [], false⟩ ∨
    (∃ item, processValid a b d = ⟨[item], [], false⟩) ∨
    (∃ item f, processValid a b d = ⟨[item], [f], true⟩) := by
  simp only [processValid]
  split
  · left; rfl
  · split
    · split
      · left; rfl
      · split
        · split
          · right; right; exact ⟨_, _, rfl⟩
          · right; left; exact ⟨_, rfl⟩
        · left; rfl
    · left; rfl

theorem processBody_ok_items (a b : Bool) (m : Option TripData)
    (h : (processBody a b m).ok = true) :
    (processBody a b m).items.length = 1 := by
  cases m with
  | none => exact absurd h (by simp [processBody])
  | some d =>
    simp only [processBody] at *
    split at h
    · rcases processValid_cases a b d with hc | ⟨item, hc⟩ | ⟨item, f, hc⟩ <;>
        rw [hc] at h ⊢ <;> simp_all
    · exact absurd h (by simp)

theorem processValid_fh (d : TripData)
    (h : (processValid true true d).ok = true) :
    processValid true false d = ⟨(processValid true true d).items, [], false⟩ := by
  simp only [processValid] at *
  split at h
  · exact absurd h (by simp)
  · split at h
    · split at h
      · exact absurd h (by simp)
      · simp
    · exact absurd h (by simp)

theorem processBody_fh (d : TripData)
    (h : (processBody true true (some d)).ok = true) :
    processBody true false (some d) =
      ⟨(processBody true true (some d)).items, [], false⟩ := by
  by_cases hv : (validate_trip_data d).1 = true
  · simp only [processBody, if_pos hv]
    exact processValid_fh d (by simpa [processBody, if_pos hv] using h)
  · exact absurd h (by simp [processBody, hv])

theorem runRecords_all_ok (xs : List RecIn)
    (h : ∀ r ∈ xs, (processBody r.2.1 r.2.2 r.1).ok = true) :
    (runRecords xs).processed = xs.length ∧
    (runRecords xs).failed = 0 ∧
    (runRecords xs).total = xs.length ∧
    (runRecords xs).dynamo.length = xs.length := by
  induction xs with
  | nil => simp [runRecords]
  | cons r rs ih =>
    have hr := h r (List.mem_cons_self r rs)
    have hlen := processBody_ok_items r.2.1 r.2.2 r.1 hr
    obtain ⟨ih1, ih2, ih3, ih4⟩ := ih (fun x hx => h x (List.mem_cons_of_mem r hx))
    simp [runRecords, hr, ih1, ih2, ih3, ih4, hlen, Nat.add_comm]

theorem runRecords_append (xs ys : List RecIn) :
    runRecords (xs ++ ys) =
      ⟨(runRecords xs).processed + (runRecords ys).processed,
       (runRecords xs).failed + (runRecords ys).failed,
       (runRecords xs).total + (runRecords ys).total,
       (runRecords xs).dynamo ++ (runRecords ys).dynamo,
       (runRecords xs).fh ++ (runRecords ys).fh⟩ := by
  induction xs with
  | nil => simp [runRecords]
  | cons r rs ih =>
    simp [runRecords, ih, Nat.add_assoc, List.append_assoc]

/-!
### Claim theorems
-/

/-- C1: for every input, `calculate_fare(distance_km, zone_name)` returns
`round(50.0 + d * 18.5 + (100.0 if zone_name contains "Airport" else 0.0), 2)`
where `d` is `distance_km` parsed as a number, or `0.0` when non-numeric
(no error raised); in particular `distance_km=10`, `zone_name="Airport
Terminal"` gives `335.0`, and `distance_km=0`, `zone_name="Downtown"`
gives `50.0`. -/
theorem C1_fare_formula :
    (∀ (v : JVal) (z : Option String), calculate_fare v z = fareSpec v z) ∧
    calculate_fare (JVal.num 10) (some "Airport Terminal") = 335 ∧
    calculate_fare (JVal.num 0) (some "Downtown") = 50 := by
  refine ⟨?_, by with_unfolding_all rfl, by with_unfolding_all rfl⟩
  intro v z
  simp only [calculate_fare, fareSpec, airportTest_eq]
  by_cases h : zoneHasAirport z = true
  · rw [if_pos h, if_pos h]
  · rw [if_neg h, if_neg h]
    exact congrArg round2 (by ring)

/-- C4 (counterexample): the reverse-geocoding query point is built from
the record's `longitude`/`latitude` fields, not from
`pickup_long`/`pickup_lat`: on a record where the two pairs disagree the
query carries the legacy pair. -/
theorem C4_counterexample :
    enrichQuery "index" dAlias = some ⟨"index", [3, 4], 1⟩ ∧
    pyFloat (dget dAlias "pickup_long") = some 1 ∧
    pyFloat (dget dAlias "pickup_lat") = some 2 ∧
    ([(3 : ℚ), 4] ≠ [(1 : ℚ), 2]) := by
  refine ⟨by decide, by decide, by decide, by decide⟩

/-- C4 (amended): for every successfully decoded message, the
reverse-geocoding query point is built from the record's `longitude` and
`latitude` fields (as longitude and latitude respectively), with
`max_results = 1`, scoped to the configured place index. -/
theorem C4_amended_query (idx : String) (d : TripData) (lv tv : JVal)
    (lo la : ℚ)
    (h1 : dlookup d "longitude" = some lv) (h2 : pyFloat lv = some lo)
    (h3 : dlookup d "latitude" = some tv) (h4 : pyFloat tv = some la) :
    enrichQuery idx d = some ⟨idx, [lo, la], 1⟩ := by
  simp [enrichQuery, h1, h2, h3, h4]

/-- Witness for C4 (amended) at a concrete record. -/
theorem C4_amended_query_witness :
    enrichQuery "pi" dAlias = some ⟨"pi", [3, 4], 1⟩ :=
  C4_amended_query "pi" dAlias (JVal.num 3) (JVal.num 4) 3 4
    (by decide) (by decide) (by decide) (by decide)

/-- C5: a record missing (absent or null) at least one required field
fails validation and the rejection message names exactly the missing
fields, in the order of the required-field list
`trip_id, taxi_id, pickup_datetime, pickup_lat, pickup_long, drop_lat,
drop_long, distance_km`. -/
theorem C5_missing_fields (d : TripData)
    (h : ∃ f ∈ required_fields, isMissing d f = true) :
    validate_trip_data d =
      (false, VMsg.missing (required_fields.filter (fun f => isMissing d f))) ∧
    required_fields = ["trip_id", "taxi_id", "pickup_datetime", "pickup_lat",
      "pickup_long", "drop_lat", "drop_long", "distance_km"] ∧
    ∀ f, f ∈ required_fields.filter (fun f => isMissing d f) ↔
      (f ∈ required_fields ∧ isMissing d f = true) := by
  have hne : (required_fields.filter (fun f => isMissing d f)).isEmpty = false := by
    obtain ⟨f, hf, hm⟩ := h
    have hmem : f ∈ required_fields.filter (fun f => isMissing d f) :=
      List.mem_filter.mpr ⟨hf, hm⟩
    cases hl : required_fields.filter (fun f => isMissing d f) with
    | nil => rw [hl] at hmem; exact absurd hmem (List.not_mem_nil f)
    | cons a l => rfl
  refine ⟨?_, rfl, fun f => by simp [List.mem_filter]⟩
  simp [validate_trip_data, hne]

/-- Witness for C5 at a record with only `taxi_id` present. -/
theorem C5_missing_fields_witness :
    validate_trip_data [("taxi_id", JVal.str "X")] =
      (false, VMsg.missing ["trip_id", "pickup_datetime", "pickup_lat",
        "pickup_long", "drop_lat", "drop_long", "distance_km"]) := by
  have h := C5_missing_fields [("taxi_id", JVal.str "X")]
    ⟨"trip_id", by decide, by decide⟩
  rw [h.1]
  decide

/-- C7 (counterexample): the enrichment handler's success body reports
`len(event['Records'])`; on a batch of one undecodable message it reports
1 although 0 records were decoded, enriched, and published. -/
theorem C7_counterexample :
    (enrich_handler "i" (fun _ => []) [none]).reportedCount = 1 ∧
    (enrich_handler "i" (fun _ => []) [none]).sent = [] := by
  exact ⟨rfl, rfl⟩

/-- C7 (amended): the success result reports the count of records received
in the invocation batch, regardless of per-record success, not per-record
status. -/
theorem C7_amended_reported_count (idx : String) (geo : GeoQuery → List String)
    (msgs : List (Option TripData)) :
    (enrich_handler idx geo msgs).reportedCount = msgs.length := rfl

/-- C9: the defaulting step is idempotent, and it never overwrites a field
that is already present. -/
theorem C9_defaulting_idempotent (d : TripData) (k : String) (v : JVal)
    (h : dlookup d k = some v) :
    setDefaults (setDefaults d) = setDefaults d ∧
    dlookup (setDefaults d) k = some v := by
  constructor
  · refine setDefaults_of_all_present (setDefaults d) ?_ ?_ ?_ ?_ ?_
    · rw [dlookup_setDefaults_pc]; rfl
    · rw [dlookup_setDefaults_extra]; rfl
    · rw [dlookup_setDefaults_tip]; rfl
    · rw [dlookup_setDefaults_tolls]; rfl
    · rw [dlookup_setDefaults_pay]; rfl
  · simp only [setDefaults]
    exact dlookup_setdefault_present _ _ _ _ _
      (dlookup_setdefault_present _ _ _ _ _
        (dlookup_setdefault_present _ _ _ _ _
          (dlookup_setdefault_present _ _ _ _ _
            (dlookup_setdefault_present _ _ _ _ _ h))))

/-- Witness for C9 at a record with `passenger_count` already present. -/
theorem C9_defaulting_idempotent_witness :
    setDefaults (setDefaults dPC) = setDefaults dPC ∧
    dlookup (setDefaults dPC) "passenger_count" = some (JVal.num 3) :=
  C9_defaulting_idempotent dPC "passenger_count" (JVal.num 3) (by decide)

/-- C2: every record persisted by the fare-and-persistence stage carries
`total_amount = round(fare + extra_charges + tip_amount + tolls_amount, 2)`
with `fare` the freshly computed `fare_amount` of the record; the total is
recomputed, so an upstream `total_amount` never reaches the store. -/
theorem C2_total_recomputed (d : TripData) (a b : Bool) (item : DynamoItem)
    (h : item ∈ (processBody a b (some d)).items) :
    (∃ z, zoneOf (dget d "zone_name") = Except.ok z ∧
      item.fare_amount = calculate_fare (dget d "distance_km") z) ∧
    item.total_amount = round2 (item.fare_amount + item.extra_charges +
      item.tip_amount + item.tolls_amount) := by
  have hp : item ∈ (processValid a b d).items := by
    simp only [processBody] at h
    split at h
    · exact h
    · exact absurd h (by simp)
  have hh := processValid_item a b d item hp
  exact ⟨hh.1, hh.2.1⟩

set_option maxRecDepth 100000 in
/-- Witness for C2 at the end-to-end sample record. -/
theorem C2_total_recomputed_witness :
    ((processBody true true (some dGood)).items.headD itemJunk).total_amount =
      round2 (((processBody true true (some dGood)).items.headD itemJunk).fare_amount +
        ((processBody true true (some dGood)).items.headD itemJunk).extra_charges +
        ((processBody true true (some dGood)).items.headD itemJunk).tip_amount +
        ((processBody true true (some dGood)).items.headD itemJunk).tolls_amount) :=
  (C2_total_recomputed dGood true true
    ((processBody true true (some dGood)).items.headD itemJunk)
    (by with_unfolding_all decide)).2

/-- C3 (counterexample): a record whose `trip_id` is present but equal to
the empty string passes validation and is written to the primary store,
so records lacking a non-empty `trip_id` are not all rejected. -/
theorem C3_counterexample :
    (processBody true true (some dEmptyTrip)).items.map DynamoItem.trip_id =
      [JVal.str ""] ∧
    (processBody true true (some dEmptyTrip)).ok = true :=
  ⟨by with_unfolding_all rfl, by with_unfolding_all rfl⟩

/-- C3 (amended): a record whose `trip_id` is absent or null is rejected
before any primary-store write; every persisted item carries the record's
`trip_id`, present and non-null (but possibly the empty string). -/
theorem C3_amended_trip_id (d : TripData) (a b : Bool) (item : DynamoItem)
    (h : item ∈ (processBody a b (some d)).items) :
    isMissing d "trip_id" = false ∧
    dlookup d "trip_id" = some item.trip_id ∧
    item.trip_id ≠ JVal.null := by
  have hval : (validate_trip_data d).1 = true := by
    by_contra hb2
    have hvf : (validate_trip_data d).1 = false := by
      revert hb2
      cases (validate_trip_data d).1 <;> simp
    rw [processBody_invalid a b d hvf] at h
    exact absurd h (by simp)
  have hp : item ∈ (processValid a b d).items := by
    simp only [processBody] at h
    rw [if_pos hval] at h
    exact h
  have htid := (processValid_item a b d item hp).2.2
  have hnm := validate_true_no_missing d hval
  have hmiss : isMissing d "trip_id" = false := by
    by_contra hm
    have hm2 : isMissing d "trip_id" = true := by
      revert hm
      cases isMissing d "trip_id" <;> simp
    have hmem : "trip_id" ∈ required_fields.filter (fun f => isMissing d f) :=
      List.mem_filter.mpr ⟨by decide, hm2⟩
    rw [hnm] at hmem
    exact absurd hmem (List.not_mem_nil _)
  refine ⟨hmiss, htid, ?_⟩
  intro hnull
  rw [hnull] at htid
  simp [isMissing, htid] at hmiss

set_option maxRecDepth 100000 in
/-- Witness for C3 (amended) at the end-to-end sample record. -/
theorem C3_amended_trip_id_witness :
    dlookup dGood "trip_id" =
      some ((processBody true true (some dGood)).items.headD itemJunk).trip_id ∧
    ((processBody true true (some dGood)).items.headD itemJunk).trip_id ≠
      JVal.null := by
  have h := C3_amended_trip_id dGood true true
    ((processBody true true (some dGood)).items.headD itemJunk)
    (by with_unfolding_all decide)
  exact ⟨h.2.1, h.2.2⟩

/-- C6: in a batch where exactly one record fails validation and every
other record fully succeeds, the stage persists the other records and
reports `failed = 1`, `processed = N-1`, `total = N`; no per-record error
aborts the batch (the handler is a total function of the batch). -/
theorem C6_batch_isolation (pre post : List RecIn) (d : TripData) (a b : Bool)
    (hpre : ∀ r ∈ pre, (processBody r.2.1 r.2.2 r.1).ok = true)
    (hpost : ∀ r ∈ post, (processBody r.2.1 r.2.2 r.1).ok = true)
    (hbad : (validate_trip_data d).1 = false) :
    (runRecords (pre ++ (some d, a, b) :: post)).processed =
      pre.length + post.length ∧
    (runRecords (pre ++ (some d, a, b) :: post)).failed = 1 ∧
    (runRecords (pre ++ (some d, a, b) :: post)).total =
      pre.length + post.length + 1 ∧
    (runRecords (pre ++ (some d, a, b) :: post)).dynamo =
      (runRecords pre).dynamo ++ (runRecords post).dynamo ∧
    (runRecords (pre ++ (some d, a, b) :: post)).dynamo.length =
      pre.length + post.length := by
  obtain ⟨hp1, hp2, hp3, hp4⟩ := runRecords_all_ok pre hpre
  obtain ⟨hq1, hq2, hq3, hq4⟩ := runRecords_all_ok post hpost
  have hmid : processBody a b (some d) = ⟨[], [], false⟩ :=
    processBody_invalid a b d hbad
  have hstep : runRecords ((some d, a, b) :: post) =
      ⟨(runRecords post).processed, 1 + (runRecords post).failed,
       1 + (runRecords post).total, (runRecords post).dynamo,
       (runRecords post).fh⟩ := by
    simp [runRecords, hmid]
  rw [runRecords_append pre ((some d, a, b) :: post), hstep]
  refine ⟨?_, ?_, ?_, rfl, ?_⟩
  · simp [hp1, hq1]
  · simp [hp2, hq2]
  · simp only [hp3, hq3]
    omega
  · simp [hp4, hq4]

/-- Witness for C6: a three-record batch whose middle record fails
validation. -/
theorem C6_batch_isolation_witness :
    (runRecords [(some dGood, true, true), (some dBadRec, true, true),
      (some dGood2, true, true)]).processed = 2 ∧
    (runRecords [(some dGood, true, true), (some dBadRec, true, true),
      (some dGood2, true, true)]).failed = 1 ∧
    (runRecords [(some dGood, true, true), (some dBadRec, true, true),
      (some dGood2, true, true)]).total = 3 ∧
    (runRecords [(some dGood, true, true), (some dBadRec, true, true),
      (some dGood2, true, true)]).dynamo.length = 2 := by
  have h := C6_batch_isolation [(some dGood, true, true)]
    [(some dGood2, true, true)] dBadRec true true
    (by with_unfolding_all decide) (by with_unfolding_all decide)
    (by with_unfolding_all decide)
  exact ⟨h.1, h.2.1, h.2.2.1, h.2.2.2.2⟩

/-- C8: a producer row with a missing or blank `pickup_datetime` is
skipped without aborting the run: the collected records and the completion
flag are those of the remaining rows, so the skipped row is not published,
does not count toward delivered records, and all subsequent rows are still
processed. -/
theorem C8_producer_skip (pre post : List Row) (bad : Row)
    (h : skipRow bad = true) :
    sendLoop (pre ++ bad :: post) = sendLoop (pre ++ post) ∧
    ∀ B, delivered B (pre ++ bad :: post) = delivered B (pre ++ post) := by
  have hmain : sendLoop (pre ++ bad :: post) = sendLoop (pre ++ post) := by
    induction pre with
    | nil => simp only [List.nil_append, sendLoop, h, if_true]
    | cons r rs ih => simp only [List.cons_append, sendLoop, List.append_eq, ih]
  refine ⟨hmain, fun B => ?_⟩
  simp [delivered, hmain]

/-- Witness for C8: a blank-datetime row before a valid row. -/
theorem C8_producer_skip_witness :
    sendLoop [rowBlank, rowT1] = sendLoop [rowT1] ∧
    delivered 100 [rowBlank, rowT1] = delivered 100 [rowT1] := by
  have h := C8_producer_skip [] [rowT1] rowBlank (by with_unfolding_all rfl)
  exact ⟨h.1, h.2 100⟩

/-- C10: the dual write is not atomic. For a record that would fully
succeed, if `put_item` succeeds and the Firehose `put_record` raises, the
record is counted failed (`processed` not incremented), yet the DynamoDB
write stands: the handler's write trace still contains the item. -/
theorem C10_firehose_failure (d : TripData)
    (h : (processBody true true (some d)).ok = true) :
    (processBody true false (some d)).items =
      (processBody true true (some d)).items ∧
    (processBody true false (some d)).items.length = 1 ∧
    (processBody true false (some d)).ok = false ∧
    (runRecords [(some d, true, false)]).processed = 0 ∧
    (runRecords [(some d, true, false)]).failed = 1 ∧
    (runRecords [(some d, true, false)]).dynamo =
      (processBody true true (some d)).items := by
  have hfh := processBody_fh d h
  have hlen := processBody_ok_items true true (some d) h
  refine ⟨by rw [hfh], by rw [hfh]; exact hlen, by rw [hfh], ?_, ?_, ?_⟩
  · simp [runRecords, hfh]
  · simp [runRecords, hfh]
  · simp [runRecords, hfh]

/-- Witness for C10 at a concrete valid record. -/
theorem C10_firehose_failure_witness :
    (processBody true false (some dGood2)).items =
      (processBody true true (some dGood2)).items ∧
    (processBody true false (some dGood2)).ok = false ∧
    (runRecords [(some dGood2, true, false)]).failed = 1 := by
  have h := C10_firehose_failure dGood2 (by with_unfolding_all rfl)
  exact ⟨h.1, h.2.2.1, h.2.2.2.2.1⟩
